import Mathlib

/-!
Shallow embedding of `src/main.rs` of wgpu-replicate: a minimal winit/wgpu
event loop that keeps a swap chain and an offscreen multisampled colour
target in sync with window geometry, and records three render passes per
redraw.

GPU-side objects are modelled by the descriptors they were created with;
the body of the `event_loop.run` closure is modelled as a pure step
function `eventStep` on an explicit `LoopState`, returning the updated
state, the trace of GPU operations performed during that callback
invocation, and whether the rebuild branch ran.  A panicking `unwrap` is
modelled as `Except.error`.
-/

namespace WgpuReplicate

/-- `wgpu::Extent3d` (wgpu 0.7: fields `width`, `height`, `depth`). -/
structure Extent3d where
  width : Nat
  height : Nat
  depth : Nat
deriving DecidableEq, Repr

/-- `wgpu::TextureFormat`; only the variant the program uses, plus one
other so equality is not vacuous. -/
inductive TextureFormat where
  | Bgra8Unorm
  | Rgba8Unorm
deriving DecidableEq, Repr

/-- `wgpu::TextureDimension`. -/
inductive TextureDimension where
  | D1
  | D2
  | D3
deriving DecidableEq, Repr

/-- `wgpu::TextureUsage` bit flags, as a `Nat` bit set. -/
def TextureUsage.COPY_SRC : Nat := 1
def TextureUsage.COPY_DST : Nat := 2
def TextureUsage.SAMPLED : Nat := 4
def TextureUsage.STORAGE : Nat := 8
def TextureUsage.RENDER_ATTACHMENT : Nat := 16

/-- `wgpu::TextureDescriptor`. The Rust lifetime parameter only affects
the `label` field; both instantiations share this one structure. -/
structure TextureDescriptor where
  label : Option String
  size : Extent3d
  mip_level_count : Nat
  sample_count : Nat
  dimension : TextureDimension
  format : TextureFormat
  usage : Nat
deriving DecidableEq, Repr

/-- The logical device. It carries no observable state in this program;
GPU objects are modelled by their creation descriptors. -/
structure Device where
deriving DecidableEq, Repr

/-- A GPU-side texture object, modelled by the exact descriptor
`device.create_texture` received (label included). -/
structure GpuTexture where
  created_with : TextureDescriptor
deriving DecidableEq, Repr

/-- `device.create_texture(&descriptor)`. -/
def Device.create_texture (_device : Device) (descriptor : TextureDescriptor) :
    GpuTexture :=
  ⟨descriptor⟩

/-- A texture view. `TextureViewDescriptor::default()` yields a view over
the whole texture, so a default view is modelled by its backing texture. -/
structure TextureView where
  texture : GpuTexture
deriving DecidableEq, Repr

/-- `tex.create_view(&wgpu::TextureViewDescriptor::default())`. -/
def GpuTexture.create_default_view (tex : GpuTexture) : TextureView :=
  ⟨tex⟩

/-- The repository's `Texture` struct (src/main.rs lines 34-38). -/
structure Texture where
  descriptor : TextureDescriptor
  buffer : GpuTexture
  view : TextureView
deriving DecidableEq, Repr

/-- `Texture::new` (src/main.rs lines 41-63): creates the GPU texture from
the caller's full descriptor, then retains a copy of the descriptor with
the label dropped (the label's lifetime is not static), and a default
view. -/
def Texture.new (device : Device) (descriptor : TextureDescriptor) : Texture :=
  let tex := device.create_texture descriptor
  let descriptor' : TextureDescriptor :=
    { label := none
      size := descriptor.size
      mip_level_count := descriptor.mip_level_count
      sample_count := descriptor.sample_count
      dimension := descriptor.dimension
      format := descriptor.format
      usage := descriptor.usage }
  let view := tex.create_default_view
  { descriptor := descriptor', buffer := tex, view := view }

/-- The descriptor `create_multisampled_framebuffer` passes to
`Texture::new` (src/main.rs lines 15-31). -/
def msaaFramebufferDescriptor (size : Extent3d) (sample_count : Nat)
    (format : TextureFormat) : TextureDescriptor :=
  { label := some "MSAA Framebuffer"
    size := { width := size.width, height := size.height, depth := 1 }
    mip_level_count := 1
    sample_count := sample_count
    dimension := TextureDimension.D2
    format := format
    usage := TextureUsage.RENDER_ATTACHMENT }

/-- `create_multisampled_framebuffer` (src/main.rs lines 9-32). -/
def create_multisampled_framebuffer (device : Device) (size : Extent3d)
    (sample_count : Nat) (format : TextureFormat) : Texture :=
  Texture.new device (msaaFramebufferDescriptor size sample_count format)

/-- `wgpu::PresentMode`. -/
inductive PresentMode where
  | Immediate
  | Mailbox
  | Fifo
deriving DecidableEq, Repr

/-- `wgpu::SwapChainDescriptor`. -/
structure SwapChainDescriptor where
  usage : Nat
  format : TextureFormat
  width : Nat
  height : Nat
  present_mode : PresentMode
deriving DecidableEq, Repr

/-- A swap chain, modelled by the descriptor it was created from. -/
structure SwapChain where
  created_with : SwapChainDescriptor
deriving DecidableEq, Repr

/-- `device.create_swap_chain(&surface, &desc)`. -/
def Device.create_swap_chain (_device : Device) (desc : SwapChainDescriptor) :
    SwapChain :=
  ⟨desc⟩

/-- `wgpu::SwapChainError` (the error variants of `get_current_frame`). -/
inductive SwapChainError where
  | Timeout
  | Outdated
  | Lost
  | OutOfMemory
deriving DecidableEq, Repr

/-- The acquired presentable frame. Its view is only used as a render-pass
attachment within the same iteration, so it carries no data here. -/
structure SwapChainFrame where
deriving DecidableEq, Repr

/-- `wgpu::Color`, restricted to the exact integral channel values the
program uses (the source stores `f64`; `WHITE` is `(1.0, 1.0, 1.0, 1.0)`). -/
structure Color where
  r : Nat
  g : Nat
  b : Nat
  a : Nat
deriving DecidableEq, Repr

def Color.WHITE : Color := ⟨1, 1, 1, 1⟩

/-- `wgpu::LoadOp`. -/
inductive LoadOp where
  | Clear (color : Color)
  | Load
deriving DecidableEq, Repr

/-- Which view a colour attachment (or resolve target) refers to in a
frame: the offscreen multisample texture's view, or the view of the
presentable image acquired this iteration. -/
inductive ViewRef where
  | multisample (view : TextureView)
  | framebuffer
deriving DecidableEq, Repr

/-- `wgpu::RenderPassColorAttachmentDescriptor`. -/
structure RenderPassColorAttachment where
  attachment : ViewRef
  load : LoadOp
  store : Bool
  resolve_target : Option ViewRef
deriving DecidableEq, Repr

/-- A recorded render pass (`wgpu::RenderPassDescriptor`). -/
structure RenderPass where
  label : Option String
  color_attachments : List RenderPassColorAttachment
  depth_stencil_attachment : Option Unit
deriving DecidableEq, Repr

/-- A finished command buffer: the render passes in recording order. -/
def CommandBuffer := List RenderPass
deriving DecidableEq, Repr

/-- The GPU operations a callback invocation performs, in order. -/
inductive GpuOp where
  | createSwapChain (desc : SwapChainDescriptor)
  | createTexture (descriptor : TextureDescriptor)
  | submit (buffer : CommandBuffer)
deriving DecidableEq, Repr

/-- `winit::dpi::PhysicalSize`. -/
structure PhysicalSize where
  width : Nat
  height : Nat
deriving DecidableEq, Repr

/-- The window events the closure matches on (src/main.rs lines 132-146).
`scaleFactorChanged` carries the suggested new inner size that winit
supplies; the source ignores it with `{ .. }`. -/
inductive WindowEvent where
  | Destroyed
  | CloseRequested
  | Resized (size : PhysicalSize)
  | ScaleFactorChanged (new_inner_size : PhysicalSize)
  | Other
deriving DecidableEq, Repr

/-- The events the closure matches on (src/main.rs lines 129-199). -/
inductive Event where
  | MainEventsCleared
  | WindowEvent (event : WindowEvent)
  | RedrawRequested
  | Other
deriving DecidableEq, Repr

/-- `winit::event_loop::ControlFlow` (the variants this program sets). -/
inductive ControlFlow where
  | Poll
  | Exit
deriving DecidableEq, Repr

/-- The mutable state captured by the `event_loop.run` closure:
`swap_chain_desc`, `swap_chain`, `multisample_texture`, plus the
`control_flow` slot winit hands to each invocation. -/
structure LoopState where
  swap_chain_desc : SwapChainDescriptor
  swap_chain : SwapChain
  multisample_texture : Texture
  control_flow : ControlFlow
deriving DecidableEq, Repr

def DEFAULT_WINDOW_WIDTH : Nat := 2048
def DEFAULT_WINDOW_HEIGHT : Nat := 2048

/-- `let sample_count = 8;` (src/main.rs line 106). -/
def sample_count : Nat := 8

/-- The setup in `main` before the loop (src/main.rs lines 95-119): the
initial swap chain descriptor, swap chain and multisample texture.
`size` is the window's inner size reported after
`set_inner_size(2048, 2048)`. -/
def initState (device : Device) (size : PhysicalSize) : LoopState :=
  let swap_chain_desc : SwapChainDescriptor :=
    { usage := TextureUsage.RENDER_ATTACHMENT
      format := TextureFormat.Bgra8Unorm
      width := size.width
      height := size.height
      present_mode := PresentMode.Fifo }
  let swap_chain := device.create_swap_chain swap_chain_desc
  let window_extent : Extent3d :=
    { width := swap_chain_desc.width, height := swap_chain_desc.height
      depth := 1 }
  let multisample_texture :=
    create_multisampled_framebuffer device window_extent sample_count
      swap_chain_desc.format
  { swap_chain_desc := swap_chain_desc
    swap_chain := swap_chain
    multisample_texture := multisample_texture
    control_flow := ControlFlow.Poll }

/-- The command buffer the `RedrawRequested` arm records
(src/main.rs lines 150-196): three render passes in order. -/
def redrawCommandBuffer (multisample_view : TextureView) : CommandBuffer :=
  [ { label := some "some msaa pass"
      color_attachments :=
        [ { attachment := ViewRef.multisample multisample_view
            load := LoadOp.Clear Color.WHITE
            store := true
            resolve_target := none } ]
      depth_stencil_attachment := none }
  , { label := some "resolve pass pass"
      color_attachments :=
        [ { attachment := ViewRef.multisample multisample_view
            load := LoadOp.Load
            store := true
            resolve_target := some ViewRef.framebuffer } ]
      depth_stencil_attachment := none }
  , { label := some "non-msaa pass"
      color_attachments :=
        [ { attachment := ViewRef.framebuffer
            load := LoadOp.Load
            store := true
            resolve_target := none } ]
      depth_stencil_attachment := none } ]

/-- One invocation of the `event_loop.run` closure (src/main.rs lines
126-219).  `acquire` is the outcome `swap_chain.get_current_frame()`
would return this iteration; `.unwrap()` on an `Err` panics, modelled as
`Except.error`.  Returns the updated captured state, the trace of GPU
operations performed, and the final value of the local
`rebuild_swapchain` flag (the flag is re-initialised to `false` at the
start of every invocation). -/
def eventStep (device : Device) (st : LoopState) (event : Event)
    (acquire : Except SwapChainError SwapChainFrame) :
    Except SwapChainError (LoopState × List GpuOp × Bool) := do
  let rebuild_swapchain := false
  let (st, trace, rebuild_swapchain) ←
    match event with
    | Event.MainEventsCleared =>
        Except.ok (st, ([] : List GpuOp), rebuild_swapchain)
    | Event.WindowEvent we =>
        match we with
        | WindowEvent.Destroyed =>
            Except.ok ({ st with control_flow := ControlFlow.Exit },
              ([] : List GpuOp), rebuild_swapchain)
        | WindowEvent.CloseRequested =>
            Except.ok ({ st with control_flow := ControlFlow.Exit },
              ([] : List GpuOp), rebuild_swapchain)
        | WindowEvent.Resized size =>
            Except.ok
              ({ st with swap_chain_desc :=
                  { st.swap_chain_desc with
                      width := size.width, height := size.height } },
                ([] : List GpuOp), true)
        | WindowEvent.ScaleFactorChanged _ =>
            Except.ok (st, ([] : List GpuOp), true)
        | WindowEvent.Other =>
            Except.ok (st, ([] : List GpuOp), rebuild_swapchain)
    | Event.RedrawRequested =>
        match acquire with
        | Except.error e => Except.error e
        | Except.ok _ =>
            let buffer := redrawCommandBuffer st.multisample_texture.view
            Except.ok (st, [GpuOp.submit buffer], rebuild_swapchain)
    | Event.Other =>
        Except.ok (st, ([] : List GpuOp), rebuild_swapchain)
  let window_extent : Extent3d :=
    { width := st.swap_chain_desc.width
      height := st.swap_chain_desc.height
      depth := 1 }
  if rebuild_swapchain then
    let swap_chain := device.create_swap_chain st.swap_chain_desc
    let multisample_texture :=
      create_multisampled_framebuffer device window_extent sample_count
        st.swap_chain_desc.format
    Except.ok
      ({ st with swap_chain := swap_chain
                 multisample_texture := multisample_texture },
        trace ++
          [ GpuOp.createSwapChain st.swap_chain_desc
          , GpuOp.createTexture
              (msaaFramebufferDescriptor window_extent sample_count
                st.swap_chain_desc.format) ],
        rebuild_swapchain)
  else
    Except.ok (st, trace, rebuild_swapchain)

/-- Run a sequence of event-loop callback invocations (one per delivered
event, as winit does), threading the captured state and counting how many
invocations took the rebuild branch.  Acquisition is assumed to succeed
on any `RedrawRequested` in the list. -/
def runEvents (device : Device) (st : LoopState) :
    List Event → Except SwapChainError (LoopState × Nat)
  | [] => Except.ok (st, 0)
  | e :: es => do
      let (st', _, rebuilt) ←
        eventStep device st e (Except.ok SwapChainFrame.mk)
      let (st'', n) ← runEvents device st' es
      Except.ok (st'', (if rebuilt then 1 else 0) + n)

/-- C10: `Texture::new` retains a descriptor whose label is always `none`
while every other field equals the corresponding field of the input
descriptor; the caller-supplied label reaches only the GPU-side texture
creation. -/
theorem textureNew_strips_label (device : Device) (d : TextureDescriptor) :
    (Texture.new device d).descriptor.label = none ∧
    (Texture.new device d).descriptor.size = d.size ∧
    (Texture.new device d).descriptor.mip_level_count = d.mip_level_count ∧
    (Texture.new device d).descriptor.sample_count = d.sample_count ∧
    (Texture.new device d).descriptor.dimension = d.dimension ∧
    (Texture.new device d).descriptor.format = d.format ∧
    (Texture.new device d).descriptor.usage = d.usage ∧
    (Texture.new device d).buffer.created_with = d := by
  refine ⟨rfl, rfl, rfl, rfl, rfl, rfl, rfl, rfl⟩

/-- C8: `create_multisampled_framebuffer` allocates a 2D texture with the
given width/height/format/sample_count, mip level count 1, depth 1, usage
render-attachment only, and a default view over that texture; and every
call site (the initial setup in `main` and the rebuild branch, reached via
`Resized` or `ScaleFactorChanged`) passes the fixed `sample_count = 8`. -/
theorem create_multisampled_framebuffer_spec (device : Device)
    (size : Extent3d) (sc : Nat) (format : TextureFormat)
    (winSize s : PhysicalSize) (st : LoopState)
    (acquire : Except SwapChainError SwapChainFrame) :
    (create_multisampled_framebuffer device size sc format).buffer.created_with
        = { label := some "MSAA Framebuffer"
            size := { width := size.width, height := size.height, depth := 1 }
            mip_level_count := 1
            sample_count := sc
            dimension := TextureDimension.D2
            format := format
            usage := TextureUsage.RENDER_ATTACHMENT } ∧
    (create_multisampled_framebuffer device size sc format).view
        = (create_multisampled_framebuffer device size sc
            format).buffer.create_default_view ∧
    sample_count = 8 ∧
    (initState device winSize).multisample_texture.descriptor.sample_count = 8 ∧
    (∀ st' trace rebuilt,
      eventStep device st (Event.WindowEvent (WindowEvent.Resized s)) acquire
          = Except.ok (st', trace, rebuilt) →
      st'.multisample_texture.descriptor.sample_count = 8) ∧
    (∀ st' trace rebuilt,
      eventStep device st
          (Event.WindowEvent (WindowEvent.ScaleFactorChanged s)) acquire
          = Except.ok (st', trace, rebuilt) →
      st'.multisample_texture.descriptor.sample_count = 8) := by
  refine ⟨rfl, rfl, rfl, rfl, ?_, ?_⟩ <;>
    · intro st' trace rebuilt h
      simp only [eventStep, bind, Except.bind, if_true] at h
      obtain ⟨rfl, -, -⟩ := by
        simpa only [Except.ok.injEq, Prod.mk.injEq] using h
      rfl

/-- C8 witness: the constructor-and-call-site theorem applied at concrete
inputs, with the rebuild hypothesis discharged by the concrete resize of
the initial 2048x2048 state to 800x600. -/
theorem create_multisampled_framebuffer_spec_witness :
    sample_count = 8 ∧
    (initState Device.mk
      ⟨2048, 2048⟩).multisample_texture.descriptor.sample_count = 8 ∧
    (initState Device.mk
      ⟨800, 600⟩).multisample_texture.descriptor.sample_count = 8 := by
  have h := create_multisampled_framebuffer_spec Device.mk ⟨2048, 2048, 1⟩ 8
    TextureFormat.Bgra8Unorm ⟨2048, 2048⟩ ⟨800, 600⟩
    (initState Device.mk ⟨2048, 2048⟩) (Except.ok SwapChainFrame.mk)
  refine ⟨h.2.2.1, h.2.2.2.1, ?_⟩
  exact h.2.2.2.2.1 (initState Device.mk ⟨800, 600⟩)
    [ GpuOp.createSwapChain (initState Device.mk ⟨800, 600⟩).swap_chain_desc
    , GpuOp.createTexture
        (msaaFramebufferDescriptor ⟨800, 600, 1⟩ sample_count
          TextureFormat.Bgra8Unorm) ]
    true (by rfl)

/-- C5: a rendered frame (a `RedrawRequested` invocation with successful
acquisition) records exactly three render passes in order into one command
buffer submitted once: Pass A clears the multisample view to a fixed color
with store and no resolve target, Pass B loads the same multisample view
with store and resolves into the acquired presentable image's view, and
Pass C loads the presentable image view with store and no resolve target. -/
theorem redraw_records_three_passes (device : Device) (st : LoopState)
    (frame : SwapChainFrame) :
    eventStep device st Event.RedrawRequested (Except.ok frame)
      = Except.ok (st,
          [GpuOp.submit
            [ { label := some "some msaa pass"
                color_attachments :=
                  [ { attachment :=
                        ViewRef.multisample st.multisample_texture.view
                      load := LoadOp.Clear Color.WHITE
                      store := true
                      resolve_target := none } ]
                depth_stencil_attachment := none }
            , { label := some "resolve pass pass"
                color_attachments :=
                  [ { attachment :=
                        ViewRef.multisample st.multisample_texture.view
                      load := LoadOp.Load
                      store := true
                      resolve_target := some ViewRef.framebuffer } ]
                depth_stencil_attachment := none }
            , { label := some "non-msaa pass"
                color_attachments :=
                  [ { attachment := ViewRef.framebuffer
                      load := LoadOp.Load
                      store := true
                      resolve_target := none } ]
                depth_stencil_attachment := none } ]],
          false) := by
  rfl

/-- C9: a window-close or destroy signal sets the control flow to `Exit`
and the invocation performs no GPU operation and never takes the rebuild
branch: the swap chain and the multisample target are returned unchanged. -/
theorem close_bypasses_rebuild (device : Device) (st : LoopState)
    (acquire : Except SwapChainError SwapChainFrame) :
    eventStep device st (Event.WindowEvent WindowEvent.CloseRequested) acquire
        = Except.ok ({ st with control_flow := ControlFlow.Exit }, [], false) ∧
    eventStep device st (Event.WindowEvent WindowEvent.Destroyed) acquire
        = Except.ok ({ st with control_flow := ControlFlow.Exit }, [], false) := by
  exact ⟨rfl, rfl⟩

/-- C1: whenever an invocation of the event-loop closure takes the rebuild
branch, the resulting offscreen multisample texture's width and height
equal the resulting swap-chain descriptor's width and height — both are
recreated from the same configuration value, so the dimension-equality
invariant holds in every state in which the rebuild branch has just run. -/
theorem rebuild_restores_dimension_invariant (device : Device)
    (st : LoopState) (event : Event)
    (acquire : Except SwapChainError SwapChainFrame)
    (st' : LoopState) (trace : List GpuOp)
    (h : eventStep device st event acquire = Except.ok (st', trace, true)) :
    st'.multisample_texture.descriptor.size.width = st'.swap_chain_desc.width ∧
    st'.multisample_texture.descriptor.size.height
      = st'.swap_chain_desc.height := by
  cases event with
  | MainEventsCleared => simp [eventStep, bind, Except.bind] at h
  | Other => simp [eventStep, bind, Except.bind] at h
  | RedrawRequested =>
      cases acquire with
      | error e => simp [eventStep, bind, Except.bind] at h
      | ok f => simp [eventStep, bind, Except.bind] at h
  | WindowEvent we =>
      cases we with
      | Destroyed => simp [eventStep, bind, Except.bind] at h
      | CloseRequested => simp [eventStep, bind, Except.bind] at h
      | Other => simp [eventStep, bind, Except.bind] at h
      | Resized s =>
          simp only [eventStep, bind, Except.bind, if_true] at h
          obtain ⟨rfl, -, -⟩ := by
            simpa only [Except.ok.injEq, Prod.mk.injEq] using h
          exact ⟨rfl, rfl⟩
      | ScaleFactorChanged s =>
          simp only [eventStep, bind, Except.bind, if_true] at h
          obtain ⟨rfl, -, -⟩ := by
            simpa only [Except.ok.injEq, Prod.mk.injEq] using h
          exact ⟨rfl, rfl⟩

/-- C1 witness: the invariant theorem applied to a concrete rebuild, a
resize of the initial 2048x2048 state to 800x600. -/
theorem rebuild_restores_dimension_invariant_witness :
    (initState Device.mk ⟨800, 600⟩).multisample_texture.descriptor.size.width
        = (initState Device.mk ⟨800, 600⟩).swap_chain_desc.width ∧
    (initState Device.mk ⟨800, 600⟩).multisample_texture.descriptor.size.height
        = (initState Device.mk ⟨800, 600⟩).swap_chain_desc.height :=
  rebuild_restores_dimension_invariant Device.mk
    (initState Device.mk ⟨2048, 2048⟩)
    (Event.WindowEvent (WindowEvent.Resized ⟨800, 600⟩))
    (Except.ok SwapChainFrame.mk)
    (initState Device.mk ⟨800, 600⟩)
    [ GpuOp.createSwapChain (initState Device.mk ⟨800, 600⟩).swap_chain_desc
    , GpuOp.createTexture
        (msaaFramebufferDescriptor ⟨800, 600, 1⟩ sample_count
          TextureFormat.Bgra8Unorm) ]
    (by rfl)

/-- C7: whenever the rebuild branch runs, the trace ends with the swap
chain being recreated first and the multisample target second, both from
the same latest recorded swap-chain descriptor; the resulting state holds
exactly those recreated objects, and the following invocation (on a
non-geometry event) performs no rebuild — the coordinator is back in the
stable, no-pending-rebuild state. -/
theorem rebuild_order_chain_then_target (device : Device)
    (st : LoopState) (event : Event)
    (acquire : Except SwapChainError SwapChainFrame)
    (st' : LoopState) (trace : List GpuOp)
    (h : eventStep device st event acquire = Except.ok (st', trace, true)) :
    (∃ pre, trace = pre ++
        [ GpuOp.createSwapChain st'.swap_chain_desc
        , GpuOp.createTexture (msaaFramebufferDescriptor
            ⟨st'.swap_chain_desc.width, st'.swap_chain_desc.height, 1⟩
            sample_count st'.swap_chain_desc.format) ]) ∧
    st'.swap_chain = Device.create_swap_chain device st'.swap_chain_desc ∧
    st'.multisample_texture = create_multisampled_framebuffer device
        ⟨st'.swap_chain_desc.width, st'.swap_chain_desc.height, 1⟩
        sample_count st'.swap_chain_desc.format ∧
    (∀ acquire₂, eventStep device st' Event.MainEventsCleared acquire₂
        = Except.ok (st', [], false)) := by
  cases event with
  | MainEventsCleared => simp [eventStep, bind, Except.bind] at h
  | Other => simp [eventStep, bind, Except.bind] at h
  | RedrawRequested =>
      cases acquire with
      | error e => simp [eventStep, bind, Except.bind] at h
      | ok f => simp [eventStep, bind, Except.bind] at h
  | WindowEvent we =>
      cases we with
      | Destroyed => simp [eventStep, bind, Except.bind] at h
      | CloseRequested => simp [eventStep, bind, Except.bind] at h
      | Other => simp [eventStep, bind, Except.bind] at h
      | Resized s =>
          simp only [eventStep, bind, Except.bind, if_true] at h
          obtain ⟨rfl, rfl, -⟩ := by
            simpa only [Except.ok.injEq, Prod.mk.injEq] using h
          exact ⟨⟨[], rfl⟩, rfl, rfl, fun _ => rfl⟩
      | ScaleFactorChanged s =>
          simp only [eventStep, bind, Except.bind, if_true] at h
          obtain ⟨rfl, rfl, -⟩ := by
            simpa only [Except.ok.injEq, Prod.mk.injEq] using h
          exact ⟨⟨[], rfl⟩, rfl, rfl, fun _ => rfl⟩

/-- C7 witness: the ordering theorem applied to a concrete rebuild (resize
of the initial state to 800x600), projected to its binder-free parts. -/
theorem rebuild_order_chain_then_target_witness :
    (initState Device.mk ⟨800, 600⟩).swap_chain
        = Device.create_swap_chain Device.mk
            (initState Device.mk ⟨800, 600⟩).swap_chain_desc ∧
    (initState Device.mk ⟨800, 600⟩).multisample_texture
        = create_multisampled_framebuffer Device.mk ⟨800, 600, 1⟩
            sample_count
            (initState Device.mk ⟨800, 600⟩).swap_chain_desc.format ∧
    eventStep Device.mk (initState Device.mk ⟨800, 600⟩)
        Event.MainEventsCleared (Except.ok SwapChainFrame.mk)
        = Except.ok (initState Device.mk ⟨800, 600⟩, [], false) := by
  have h := rebuild_order_chain_then_target Device.mk
    (initState Device.mk ⟨2048, 2048⟩)
    (Event.WindowEvent (WindowEvent.Resized ⟨800, 600⟩))
    (Except.ok SwapChainFrame.mk)
    (initState Device.mk ⟨800, 600⟩)
    [ GpuOp.createSwapChain (initState Device.mk ⟨800, 600⟩).swap_chain_desc
    , GpuOp.createTexture
        (msaaFramebufferDescriptor ⟨800, 600, 1⟩ sample_count
          TextureFormat.Bgra8Unorm) ]
    (by rfl)
  exact ⟨h.2.1, h.2.2.1, h.2.2.2 (Except.ok SwapChainFrame.mk)⟩

/-- C2 counterexample: two resize signals delivered before the next render
iteration produce two rebuilds (one at the end of each callback
invocation), not the single debounced rebuild the claim states. -/
theorem resize_pair_rebuild_count_counterexample :
    runEvents Device.mk (initState Device.mk ⟨2048, 2048⟩)
        [ Event.WindowEvent (WindowEvent.Resized ⟨800, 600⟩)
        , Event.WindowEvent (WindowEvent.Resized ⟨640, 480⟩) ]
      = Except.ok (initState Device.mk ⟨640, 480⟩, 2) := by
  rfl

/-- C2 amended: the local rebuild flag is re-initialised on every callback
invocation and checked at the end of the same invocation, so each of the
two resize signals triggers its own rebuild — two rebuilds in total — and
the second rebuild (hence the state the next frame sees) uses the latest
recorded dimensions. -/
theorem resize_pair_two_rebuilds (device : Device) (st : LoopState)
    (s₁ s₂ : PhysicalSize) :
    runEvents device st
        [ Event.WindowEvent (WindowEvent.Resized s₁)
        , Event.WindowEvent (WindowEvent.Resized s₂) ]
      = Except.ok
          ({ st with
              swap_chain_desc :=
                { st.swap_chain_desc with
                    width := s₂.width, height := s₂.height }
              swap_chain := Device.create_swap_chain device
                { st.swap_chain_desc with
                    width := s₂.width, height := s₂.height }
              multisample_texture := create_multisampled_framebuffer device
                ⟨s₂.width, s₂.height, 1⟩ sample_count
                st.swap_chain_desc.format },
            2) := by
  rfl

/-- C3 counterexample: a resize to width 0 does set the rebuild flag and
does rebuild the chain and the target with the zero width in the same
invocation, replacing the previously valid objects — there is no zero-area
guard. -/
theorem zero_area_resize_counterexample :
    eventStep Device.mk (initState Device.mk ⟨2048, 2048⟩)
        (Event.WindowEvent (WindowEvent.Resized ⟨0, 600⟩))
        (Except.ok SwapChainFrame.mk)
      = Except.ok (initState Device.mk ⟨0, 600⟩,
          [ GpuOp.createSwapChain
              (initState Device.mk ⟨0, 600⟩).swap_chain_desc
          , GpuOp.createTexture
              (msaaFramebufferDescriptor ⟨0, 600, 1⟩ sample_count
                TextureFormat.Bgra8Unorm) ], true) ∧
    (initState Device.mk ⟨0, 600⟩).multisample_texture.descriptor.size.width
      = 0 := by
  exact ⟨rfl, rfl⟩

/-- C3 amended: every resize signal, including one with a zero width or
height, records the new dimensions and rebuilds the chain and the target
with exactly those dimensions at the end of the same invocation; the code
contains no zero-area guard. -/
theorem any_resize_rebuilds (device : Device) (st : LoopState)
    (s : PhysicalSize) (acquire : Except SwapChainError SwapChainFrame) :
    eventStep device st (Event.WindowEvent (WindowEvent.Resized s)) acquire
      = Except.ok
          ({ st with
              swap_chain_desc :=
                { st.swap_chain_desc with
                    width := s.width, height := s.height }
              swap_chain := Device.create_swap_chain device
                { st.swap_chain_desc with
                    width := s.width, height := s.height }
              multisample_texture := create_multisampled_framebuffer device
                ⟨s.width, s.height, 1⟩ sample_count
                st.swap_chain_desc.format },
            [ GpuOp.createSwapChain
                { st.swap_chain_desc with
                    width := s.width, height := s.height }
            , GpuOp.createTexture
                (msaaFramebufferDescriptor ⟨s.width, s.height, 1⟩
                  sample_count st.swap_chain_desc.format) ],
            true) := by
  rfl

/-- C4 counterexample: when acquisition fails with a recoverable surface
error (here `Outdated`), the `unwrap` call panics and the invocation ends
in an error — the process terminates instead of skipping the frame and
marking a pending rebuild. -/
theorem acquire_error_panics_counterexample :
    eventStep Device.mk (initState Device.mk ⟨2048, 2048⟩)
        Event.RedrawRequested (Except.error SwapChainError.Outdated)
      = Except.error SwapChainError.Outdated := by
  rfl

/-- C4 amended: when acquiring the next presentable image fails with any
surface error, the closure unwraps the error and panics: no render pass is
recorded, no command buffer is submitted, no rebuild is scheduled, and the
process terminates. -/
theorem acquire_error_panics (device : Device) (st : LoopState)
    (e : SwapChainError) :
    eventStep device st Event.RedrawRequested (Except.error e)
      = Except.error e := by
  rfl

/-- C6 counterexample: a scale-factor-change signal carrying a new
800x600 size triggers a rebuild, but the recorded width stays 2048 — the
new dimensions are not recorded, so the rebuild uses the old ones. -/
theorem scale_factor_ignores_new_size_counterexample :
    (eventStep Device.mk (initState Device.mk ⟨2048, 2048⟩)
        (Event.WindowEvent (WindowEvent.ScaleFactorChanged ⟨800, 600⟩))
        (Except.ok SwapChainFrame.mk)
      = Except.ok (initState Device.mk ⟨2048, 2048⟩,
          [ GpuOp.createSwapChain
              (initState Device.mk ⟨2048, 2048⟩).swap_chain_desc
          , GpuOp.createTexture
              (msaaFramebufferDescriptor ⟨2048, 2048, 1⟩ sample_count
                TextureFormat.Bgra8Unorm) ], true)) ∧
    (initState Device.mk ⟨2048, 2048⟩).swap_chain_desc.width ≠ 800 := by
  exact ⟨rfl, by decide⟩

/-- C6 amended: an explicit resize event records the new width/height
immediately and triggers a rebuild with them; a scale-factor-change event
triggers a rebuild but leaves the recorded width/height untouched, so
that rebuild uses the previously recorded dimensions, not the new window
size. -/
theorem geometry_signal_dimension_recording (device : Device)
    (st : LoopState) (s : PhysicalSize)
    (acquire : Except SwapChainError SwapChainFrame) :
    eventStep device st
        (Event.WindowEvent (WindowEvent.ScaleFactorChanged s)) acquire
      = Except.ok
          ({ st with
              swap_chain := Device.create_swap_chain device st.swap_chain_desc
              multisample_texture := create_multisampled_framebuffer device
                ⟨st.swap_chain_desc.width, st.swap_chain_desc.height, 1⟩
                sample_count st.swap_chain_desc.format },
            [ GpuOp.createSwapChain st.swap_chain_desc
            , GpuOp.createTexture
                (msaaFramebufferDescriptor
                  ⟨st.swap_chain_desc.width, st.swap_chain_desc.height, 1⟩
                  sample_count st.swap_chain_desc.format) ],
            true) ∧
    eventStep device st (Event.WindowEvent (WindowEvent.Resized s)) acquire
      = Except.ok
          ({ st with
              swap_chain_desc :=
                { st.swap_chain_desc with
                    width := s.width, height := s.height }
              swap_chain := Device.create_swap_chain device
                { st.swap_chain_desc with
                    width := s.width, height := s.height }
              multisample_texture := create_multisampled_framebuffer device
                ⟨s.width, s.height, 1⟩ sample_count
                st.swap_chain_desc.format },
            [ GpuOp.createSwapChain
                { st.swap_chain_desc with
                    width := s.width, height := s.height }
            , GpuOp.createTexture
                (msaaFramebufferDescriptor ⟨s.width, s.height, 1⟩
                  sample_count st.swap_chain_desc.format) ],
            true) := by
  exact ⟨rfl, rfl⟩

end WgpuReplicate
